import Mathlib

/-!
Shallow embedding of the coffee_stats_2023 ETL pipeline
(src/transform.py, with the dashboard binding from src/app.py),
and proofs about the claims of its specification.

Numeric cells of the pandas DataFrames are modelled exactly:
a cell is NaN, a signed infinity, or a rational number, and the
arithmetic on cells follows numpy/IEEE propagation rules
(NaN propagates; division of a nonzero number by zero yields a
signed infinity; 0/0 yields NaN).
-/

namespace CoffeeStats

/-- Value of a numeric pandas cell: NaN, a signed infinity
(`true` = positive), or an exact rational number. -/
inductive PVal where
  | nan : PVal
  | inf : Bool → PVal
  | num : ℚ → PVal
deriving DecidableEq, Repr

/-- Multiplication of pandas cells, following numpy/IEEE rules:
NaN propagates, infinity times zero is NaN, signs multiply. -/
def PVal.mul : PVal → PVal → PVal
  | .nan, _ => .nan
  | .inf _, .nan => .nan
  | .num _, .nan => .nan
  | .inf s, .inf t => .inf (s == t)
  | .inf s, .num q => if q = 0 then .nan else .inf (s == decide (0 < q))
  | .num q, .inf s => if q = 0 then .nan else .inf (s == decide (0 < q))
  | .num a, .num b => .num (a * b)

/-- Division of pandas cells, following numpy/IEEE rules:
NaN propagates, a nonzero number divided by zero is a signed
infinity, 0/0 is NaN, a number divided by infinity is zero. -/
def PVal.div : PVal → PVal → PVal
  | .nan, _ => .nan
  | .inf _, .nan => .nan
  | .num _, .nan => .nan
  | .inf _, .inf _ => .nan
  | .inf s, .num q => if q = 0 then .inf s else .inf (s == decide (0 < q))
  | .num _, .inf _ => .num 0
  | .num a, .num b =>
      if b = 0 then (if a = 0 then .nan else .inf (decide (0 < a))) else .num (a / b)

/-- Reference country registry consulted by `normalize_country`
(`pycountry.countries.lookup` in the source): maps a free-text name
to the registry's canonical short name, or `none` on lookup failure. -/
abbrev Registry := String → Option String

/-- In-memory memoization cache of the normalizer (`COUNTRY_CACHE`),
a Python dict from input name to cached result.  Keys are unique
because the source only inserts a key it did not find. -/
abbrev Cache := List (String × String)

/-- Lookup in the normalizer cache (`name in COUNTRY_CACHE`). -/
def cacheLookup (σ : Cache) (k : String) : Option String :=
  (σ.find? (fun p => p.1 == k)).map (·.2)

/-- Result of one `normalize_country` call: the returned string, the
cache afterwards, and whether a warning-level diagnostic was logged. -/
structure NormResult where
  result : String
  cache : Cache
  warned : Bool
deriving DecidableEq, Repr

/-- Embedding of `normalize_country` (src/transform.py lines 14-25):
return the cached value if present; otherwise look the name up in the
registry, returning the canonical name on a match and the original
name (with a warning) on a `LookupError`.  The function is total:
the lookup failure is caught inside it and never escapes. -/
def normalize_country (R : Registry) (σ : Cache) (name : String) : NormResult :=
  match cacheLookup σ name with
  | some v => ⟨v, σ, false⟩
  | none =>
      match R name with
      | some c => ⟨c, σ ++ [(name, c)], false⟩
      | none => ⟨name, σ ++ [(name, name)], true⟩

/-- Embedding of `series.apply(normalize_country)`: normalize a list of
names in order, threading the module-level cache through the calls. -/
def normalizeAll (R : Registry) (σ : Cache) : List String → List String × Cache
  | [] => ([], σ)
  | n :: ns =>
      let r := normalize_country R σ n
      let rest := normalizeAll R r.cache ns
      (r.result :: rest.1, rest.2)

/-- Row of the consumption input CSV (`coffee_consumption_2023.csv`)
as the transform reads it: columns `Area` and `consumption_t`. -/
structure ConsRow where
  Area : String
  consumption_t : PVal
deriving DecidableEq, Repr

/-- Row of the population input CSV (`population_2023.csv`):
columns `country`, `country_code` (nullable), `population`. -/
structure PopRow where
  country : String
  country_code : Option String
  population : PVal
deriving DecidableEq, Repr

/-- Row of the emission/water input CSV (`coffee_emission_water.csv`):
columns `product`, `emission_kgCO2e_per_kg`, `water_l_per_kg`. -/
structure EmisRow where
  product : String
  emission_kgCO2e_per_kg : PVal
  water_l_per_kg : PVal
deriving DecidableEq, Repr

/-- Consumption input table: the CSV header (`cols`, checked by the
schema validation) together with its typed rows. -/
structure ConsTable where
  cols : List String
  rows : List ConsRow
deriving DecidableEq, Repr

/-- Population input table: header and typed rows. -/
structure PopTable where
  cols : List String
  rows : List PopRow
deriving DecidableEq, Repr

/-- Emission/water input table: header and typed rows. -/
structure EmisTable where
  cols : List String
  rows : List EmisRow
deriving DecidableEq, Repr

/-- Required columns of the consumption table
(src/transform.py line 44). -/
def requiredConsCols : List String := ["Area", "consumption_t"]

/-- Required columns of the emission/water table (line 45). -/
def requiredEmisCols : List String :=
  ["product", "emission_kgCO2e_per_kg", "water_l_per_kg"]

/-- Required columns of the population table (line 46). -/
def requiredPopCols : List String := ["country", "country_code", "population"]

/-- Embedding of `[c for c in cols if c not in df.columns]` (line 50). -/
def missingCols (present req : List String) : List String :=
  req.filter (fun c => ¬ present.contains c)

/-- Errors of the transform: `schemaError` is the
`ValueError("Estrutura de dados inválida")` raised on a missing
required column; `missingInput` is the propagated `FileNotFoundError`. -/
inductive TransformError where
  | schemaError : TransformError
  | missingInput : TransformError
deriving DecidableEq, Repr

/-- Row of the intermediate DataFrame after the left merge of the
normalized consumption table with the population table on
`country_norm` (src/transform.py lines 64-70). -/
structure JoinRow where
  country_norm : String
  consumption_kg : PVal
  country_code : Option String
  population : PVal
deriving DecidableEq, Repr

/-- Embedding of the pandas left merge on `country_norm`: each left row
in order, paired with every matching right row in right order; a left
row with no match keeps a `none` country code and NaN population. -/
def leftJoinPop (consN : List (String × PVal))
    (popN : List (String × Option String × PVal)) : List JoinRow :=
  consN.flatMap (fun c =>
    match popN.filter (fun p => p.1 == c.1) with
    | [] => [⟨c.1, c.2, none, .nan⟩]
    | ms => ms.map (fun p => ⟨c.1, c.2, p.2.1, p.2.2⟩))

/-- Normalized country column of the consumption table
(`cons["country_norm"]`, line 56), starting from the fresh
module-level cache of one run. -/
def consNorm (R : Registry) (cons : ConsTable) : List String :=
  (normalizeAll R [] (cons.rows.map (·.Area))).1

/-- Cache state after normalizing the consumption country column. -/
def cacheAfterCons (R : Registry) (cons : ConsTable) : Cache :=
  (normalizeAll R [] (cons.rows.map (·.Area))).2

/-- Normalized country column of the population table
(`pop["country_norm"]`, line 57), continuing with the cache left by
the consumption pass. -/
def popNorm (R : Registry) (cons : ConsTable) (pop : PopTable) : List String :=
  (normalizeAll R (cacheAfterCons R cons) (pop.rows.map (·.country))).1

/-- The consumption-to-kilogram conversion of the transform
(line 61): `cons["consumption_kg"] = cons["consumption_t"] * 1000`. -/
def consumptionKg (r : ConsRow) : PVal :=
  r.consumption_t.mul (.num 1000)

/-- Left operand of the merge: normalized country paired with the
kilogram consumption of each consumption row. -/
def consKeyed (R : Registry) (cons : ConsTable) : List (String × PVal) :=
  (consNorm R cons).zip (cons.rows.map consumptionKg)

/-- Right operand of the merge: normalized country paired with
country code and population of each population row. -/
def popKeyed (R : Registry) (cons : ConsTable) (pop : PopTable) :
    List (String × Option String × PVal) :=
  (popNorm R cons pop).zip (pop.rows.map (fun r => (r.country_code, r.population)))

/-- The consumption-population left join of the transform
(src/transform.py lines 64-70). -/
def joinedRows (R : Registry) (cons : ConsTable) (pop : PopTable) : List JoinRow :=
  leftJoinPop (consKeyed R cons) (popKeyed R cons pop)

/-- Row of the final artifact `coffee_footprint_2023.csv`, with every
column the transform writes, in the order pandas holds them. -/
structure OutRow where
  country_norm : String
  consumption_kg : PVal
  country_code : Option String
  population : PVal
  emission_kgCO2e_per_kg : PVal
  water_l_per_kg : PVal
  consumption_kg_per_capita : PVal
  total_emission_kgCO2e : PVal
  emission_kgCO2e_per_capita : PVal
  total_water_l : PVal
  water_per_capita : PVal
  original_country : Option String
deriving DecidableEq, Repr

/-- Metric derivation of the transform (src/transform.py lines 78-82)
on one row of the cross-joined frame, plus the `original_country`
column attached on line 85. -/
def computeRow (j : JoinRow) (e : EmisRow) (orig : Option String) : OutRow :=
  let cpc := j.consumption_kg.div j.population
  { country_norm := j.country_norm
    consumption_kg := j.consumption_kg
    country_code := j.country_code
    population := j.population
    emission_kgCO2e_per_kg := e.emission_kgCO2e_per_kg
    water_l_per_kg := e.water_l_per_kg
    consumption_kg_per_capita := cpc
    total_emission_kgCO2e := j.consumption_kg.mul e.emission_kgCO2e_per_kg
    emission_kgCO2e_per_capita := cpc.mul e.emission_kgCO2e_per_kg
    total_water_l := j.consumption_kg.mul e.water_l_per_kg
    water_per_capita := cpc.mul e.water_l_per_kg
    original_country := orig }

/-- Embedding of one Python dict assignment `d[k] = v`: overwrite the
value if the key exists (keeping its position), append otherwise. -/
def dictInsert (d : List (String × String)) (k v : String) : List (String × String) :=
  if d.any (fun p => p.1 == k) then
    d.map (fun p => if p.1 == k then (k, v) else p)
  else d ++ [(k, v)]

/-- Embedding of `Series.to_dict()` on a series with possibly duplicate
index: insert the pairs in order, so a later value overwrites an
earlier one for the same key. -/
def toDict (l : List (String × String)) : List (String × String) :=
  l.foldl (fun d p => dictInsert d p.1 p.2) []

/-- Dict lookup (`.map(country_map)`); `none` models the NaN pandas
would produce for a missing key. -/
def dictLookup (d : List (String × String)) (k : String) : Option String :=
  (d.find? (fun p => p.1 == k)).map (·.2)

/-- The reverse map from canonical country name to original spelling
(`country_map = cons.set_index("country_norm")["Area"].to_dict()`,
src/transform.py line 84). -/
def countryMap (R : Registry) (cons : ConsTable) : List (String × String) :=
  toDict ((consNorm R cons).zip (cons.rows.map (·.Area)))

/-- The full row set of the final artifact: the left-joined frame
cross-joined with the emission/water rows (lines 71-74), with the
derived metrics and the `original_country` column. -/
def mkOutput (R : Registry) (cons : ConsTable) (emis : EmisTable) (pop : PopTable) :
    List OutRow :=
  (joinedRows R cons pop).flatMap (fun j =>
    emis.rows.map (fun e =>
      computeRow j e (dictLookup (countryMap R cons) j.country_norm)))

/-- Embedding of `transform_all` (src/transform.py lines 27-91) from
the point where the three tables are loaded: validate the required
columns of each table in source order, aborting with `schemaError` on
the first table with a missing column, then normalize, convert, join
and derive.  The output file is written only on success. -/
def transform_all (R : Registry) (cons : ConsTable) (emis : EmisTable)
    (pop : PopTable) : Except TransformError (List OutRow) :=
  if missingCols cons.cols requiredConsCols ≠ [] then .error .schemaError
  else if missingCols emis.cols requiredEmisCols ≠ [] then .error .schemaError
  else if missingCols pop.cols requiredPopCols ≠ [] then .error .schemaError
  else .ok (mkOutput R cons emis pop)

/-- Contents of `coffee_footprint_2023.csv` after a run: the transform
reaches `df.to_csv(OUTPUT_PATH)` (line 88) only when no validation
raised, so a failed run writes nothing. -/
def outputFile (R : Registry) (cons : ConsTable) (emis : EmisTable)
    (pop : PopTable) : Option (List OutRow) :=
  (transform_all R cons emis pop).toOption

/-- Column order of the final artifact as pandas writes it. -/
def outputColumns : List String :=
  ["country_norm", "consumption_kg", "country_code", "population",
   "emission_kgCO2e_per_kg", "water_l_per_kg", "consumption_kg_per_capita",
   "total_emission_kgCO2e", "emission_kgCO2e_per_capita", "total_water_l",
   "water_per_capita", "original_country"]

/-- Column that the dashboard binds the choropleth locations to
(src/app.py line 93: `locations="country_code"`). -/
def choroplethLocations : String := "country_code"

/-- Modelled from the spec: the fields that section 3 enumerates for
`FootprintRecord`, used only to compare the written artifact against
the spec's record (the artifact carries a column beyond these). -/
def specFootprintFields : List String :=
  ["country_norm", "original_country", "consumption_kg", "population",
   "consumption_kg_per_capita", "total_emission_kgCO2e",
   "emission_kgCO2e_per_capita", "total_water_l", "water_per_capita"]


theorem div_nan_right (x : PVal) : x.div .nan = .nan := by cases x <;> rfl

theorem nan_mul_left (y : PVal) : PVal.nan.mul y = .nan := rfl

theorem transform_ok {R : Registry} {cons : ConsTable} {emis : EmisTable}
    {pop : PopTable} {out : List OutRow}
    (h : transform_all R cons emis pop = .ok out) :
    out = mkOutput R cons emis pop := by
  unfold transform_all at h
  split at h
  · simp at h
  · split at h
    · simp at h
    · split at h
      · simp at h
      · exact (Except.ok.inj h).symm

theorem mem_mkOutput {R : Registry} {cons : ConsTable} {emis : EmisTable}
    {pop : PopTable} {r : OutRow} :
    r ∈ mkOutput R cons emis pop ↔
      ∃ j ∈ joinedRows R cons pop, ∃ e ∈ emis.rows,
        r = computeRow j e (dictLookup (countryMap R cons) j.country_norm) := by
  simp only [mkOutput, List.mem_flatMap, List.mem_map]
  constructor
  · rintro ⟨j, hj, e, he, rfl⟩
    exact ⟨j, hj, e, he, rfl⟩
  · rintro ⟨j, hj, e, he, rfl⟩
    exact ⟨j, hj, e, he, rfl⟩

theorem sum_map_one {α : Type} (l : List α) : (l.map (fun _ => 1)).sum = l.length := by
  induction l with
  | nil => rfl
  | cons a l ih => simp [ih, Nat.add_comm]

/-- Claim C4: in every row of the final artifact, `total_emission_kgCO2e`
equals `consumption_kg` multiplied by `emission_kgCO2e_per_kg`, where
`emission_kgCO2e_per_kg` is the single global factor of the one-row
emission/water table, carried identically on every row. -/
theorem total_emission_is_consumption_times_global_factor
    {R : Registry} {cons : ConsTable} {emis : EmisTable} {pop : PopTable}
    {out : List OutRow} {e : EmisRow}
    (hemis : emis.rows = [e])
    (htr : transform_all R cons emis pop = .ok out)
    {r : OutRow} (hr : r ∈ out) :
    r.emission_kgCO2e_per_kg = e.emission_kgCO2e_per_kg ∧
    r.total_emission_kgCO2e = r.consumption_kg.mul e.emission_kgCO2e_per_kg := by
  rw [transform_ok htr] at hr
  obtain ⟨j, hj, e', he', rfl⟩ := mem_mkOutput.mp hr
  rw [hemis, List.mem_singleton] at he'
  subst he'
  exact ⟨rfl, rfl⟩

/-- Claim C6: when the emission/water table has exactly one row and the
consumption-population left join yields pairwise-distinct countries,
the final artifact has exactly as many rows as the join has distinct
countries: the broadcast cross-join does not change the row count. -/
theorem artifact_row_count_eq_distinct_countries
    {R : Registry} {cons : ConsTable} {emis : EmisTable} {pop : PopTable}
    {out : List OutRow} {e : EmisRow}
    (hemis : emis.rows = [e])
    (htr : transform_all R cons emis pop = .ok out)
    (hnd : ((joinedRows R cons pop).map (·.country_norm)).Nodup) :
    out.length = ((joinedRows R cons pop).map (·.country_norm)).dedup.length := by
  rw [hnd.dedup, List.length_map, transform_ok htr]
  simp only [mkOutput, List.length_flatMap, hemis]
  have hone : (List.length ∘ fun j : JoinRow =>
      List.map (fun e0 => computeRow j e0 (dictLookup (countryMap R cons) j.country_norm)) [e]) =
      fun _ => 1 := by
    funext j
    rfl
  rw [hone, sum_map_one]

/-- Claim C3 (amended): in every row of the final artifact whose
population is null (NaN), the per-capita fields are NaN, never zero,
and the derivation is total (never raises); when the population is the
number zero and the consumption a nonzero number, the per-capita
consumption is a signed infinity — not null and not zero. -/
theorem per_capita_on_null_or_zero_population
    {R : Registry} {cons : ConsTable} {emis : EmisTable} {pop : PopTable}
    {out : List OutRow}
    (htr : transform_all R cons emis pop = .ok out)
    {r : OutRow} (hr : r ∈ out) :
    (r.population = .nan →
      r.consumption_kg_per_capita = .nan ∧
      r.emission_kgCO2e_per_capita = .nan ∧
      r.water_per_capita = .nan) ∧
    (∀ q : ℚ, r.population = .num 0 → r.consumption_kg = .num q → q ≠ 0 →
      r.consumption_kg_per_capita = .inf (decide (0 < q)) ∧
      r.consumption_kg_per_capita ≠ .nan ∧
      r.consumption_kg_per_capita ≠ .num 0) := by
  rw [transform_ok htr] at hr
  obtain ⟨j, hj, e', he', rfl⟩ := mem_mkOutput.mp hr
  constructor
  · intro hpop
    simp only [computeRow] at hpop ⊢
    rw [hpop, div_nan_right]
    exact ⟨rfl, rfl, rfl⟩
  · intro q hpop hcons hq
    simp only [computeRow] at hpop hcons ⊢
    rw [hpop, hcons]
    simp [PVal.div, hq]



/-- Claim C5: a missing required column in any of the three input
tables makes the transform raise the schema error and abort before
anything is joined or written: no output file is produced. -/
theorem missing_column_raises_schema_error
    {R : Registry} {cons : ConsTable} {emis : EmisTable} {pop : PopTable}
    (h : (∃ c ∈ requiredConsCols, ¬ cons.cols.contains c) ∨
         (∃ c ∈ requiredEmisCols, ¬ emis.cols.contains c) ∨
         (∃ c ∈ requiredPopCols, ¬ pop.cols.contains c)) :
    transform_all R cons emis pop = .error .schemaError ∧
    outputFile R cons emis pop = none := by
  have key : transform_all R cons emis pop = .error .schemaError := by
    unfold transform_all
    rcases h with ⟨c, hc, hnc⟩ | ⟨c, hc, hnc⟩ | ⟨c, hc, hnc⟩
    · have hne : missingCols cons.cols requiredConsCols ≠ [] :=
        List.ne_nil_of_mem (List.mem_filter.mpr ⟨hc, by simpa using hnc⟩)
      simp [hne]
    · by_cases h1 : missingCols cons.cols requiredConsCols = []
      · have hne : missingCols emis.cols requiredEmisCols ≠ [] :=
          List.ne_nil_of_mem (List.mem_filter.mpr ⟨hc, by simpa using hnc⟩)
        simp [h1, hne]
      · simp [h1]
    · by_cases h1 : missingCols cons.cols requiredConsCols = []
      · by_cases h2 : missingCols emis.cols requiredEmisCols = []
        · have hne : missingCols pop.cols requiredPopCols ≠ [] :=
            List.ne_nil_of_mem (List.mem_filter.mpr ⟨hc, by simpa using hnc⟩)
          simp [h1, h2, hne]
        · simp [h1, h2]
      · simp [h1]
  exact ⟨key, by simp [outputFile, key, Except.toOption]⟩

/-- Claim C7: a `normalize_country` call that actually performs a
lookup (the name is not yet memoized) returns the registry's canonical
short name when the registry knows the name, and otherwise returns the
original input unchanged while logging exactly one warning; the
function is total, so no exception escapes it. -/
theorem normalize_lookup_behavior
    (R : Registry) (σ : Cache) (name : String)
    (h : cacheLookup σ name = none) :
    (normalize_country R σ name).result = (R name).getD name ∧
    (normalize_country R σ name).warned = (R name).isNone := by
  unfold normalize_country
  rw [h]
  cases hR : R name <;> simp

/-- Consistency of the normalizer cache with the registry: every
cached value is exactly what a fresh lookup of its key returns. -/
def CacheConsistent (R : Registry) (σ : Cache) : Prop :=
  ∀ p ∈ σ, p.2 = (R p.1).getD p.1

theorem normalize_result_of_fixed {R : Registry} {σ' : Cache} {c : String}
    (hfix : ∀ p ∈ σ', p.1 = c → p.2 = c) (hc : R c = some c) :
    (normalize_country R σ' c).result = c := by
  unfold normalize_country
  cases hl : cacheLookup σ' c with
  | some v =>
    obtain ⟨p, hfind, hpv⟩ := Option.map_eq_some'.mp hl
    have hpmem := List.mem_of_find?_eq_some hfind
    have hpeq : p.1 = c := by simpa using List.find?_some hfind
    simp [← hpv, hfix p hpmem hpeq]
  | none =>
    simp [hc]

/-- Claim C9: over a registry in which every canonical name looks up
to itself (as pycountry's does: looking a country's name up yields
that country) and starting from a cache consistent with the registry,
`normalize_country` is idempotent on every name present in the
registry: renormalizing the result, with the cache the first call left
behind, returns the same string. -/
theorem normalize_idempotent
    {R : Registry} {σ : Cache} {name : String}
    (hstable : ∀ n c, R n = some c → R c = some c)
    (hconsist : CacheConsistent R σ)
    (hfound : (R name).isSome) :
    (normalize_country R (normalize_country R σ name).cache
        (normalize_country R σ name).result).result =
      (normalize_country R σ name).result := by
  obtain ⟨c, hc⟩ := Option.isSome_iff_exists.mp hfound
  have hcc : R c = some c := hstable name c hc
  have hfixσ : ∀ p ∈ σ, p.1 = c → p.2 = c := by
    intro p hp hpc
    have hv := hconsist p hp
    rw [hpc] at hv
    rw [hv, hcc]
    rfl
  cases hl : cacheLookup σ name with
  | some v =>
    have hσ : normalize_country R σ name = ⟨v, σ, false⟩ := by
      unfold normalize_country
      rw [hl]
    have hv : v = c := by
      obtain ⟨p, hfind, hpv⟩ := Option.map_eq_some'.mp hl
      have hpmem := List.mem_of_find?_eq_some hfind
      have hpeq : p.1 = name := by simpa using List.find?_some hfind
      have hcv := hconsist p hpmem
      rw [hpeq] at hcv
      rw [← hpv, hcv, hc]
      rfl
    rw [hσ]
    simp only
    rw [hv]
    exact normalize_result_of_fixed hfixσ hcc
  | none =>
    have hσ : normalize_country R σ name = ⟨c, σ ++ [(name, c)], false⟩ := by
      unfold normalize_country
      rw [hl, hc]
    rw [hσ]
    simp only
    apply normalize_result_of_fixed (fun p hp hpc => ?_) hcc
    rcases List.mem_append.mp hp with h1 | h1
    · exact hfixσ p h1 hpc
    · rw [List.mem_singleton] at h1
      rw [h1]


/-- The original spelling the artifact actually carries for a
canonical country name: the LAST consumption row normalizing to that
name, because later dict insertions overwrite earlier ones. -/
def lastSeenOriginal (R : Registry) (cons : ConsTable) (c : String) : Option String :=
  ((((consNorm R cons).zip (cons.rows.map (·.Area))).reverse.find?
      (fun p => p.1 == c)).map (·.2))

/-- Modelled from the spec: the FIRST-seen original spelling in the
consumption table normalizing to the given canonical name — the
spec's "reverse lookup from canonical name back to the first-seen
original spelling"; compared against what the code computes. -/
def firstSeenOriginal (R : Registry) (cons : ConsTable) (c : String) : Option String :=
  ((((consNorm R cons).zip (cons.rows.map (·.Area))).find?
      (fun p => p.1 == c)).map (·.2))

theorem find?_map_replace_pos (d : List (String × String)) (k v : String)
    (h : d.any (fun p => p.1 == k)) :
    (d.map (fun p => if p.1 == k then (k, v) else p)).find? (fun p => p.1 == k) =
      some (k, v) := by
  induction d with
  | nil => simp at h
  | cons a d ih =>
    by_cases ha : a.1 = k
    · simp [ha]
    · simp only [List.map_cons]
      rw [if_neg (by simpa using ha)]
      rw [List.find?_cons_of_neg _ (by simpa using ha)]
      apply ih
      simpa [ha] using h

theorem find?_map_replace_ne (d : List (String × String)) (k v k' : String)
    (h : k' ≠ k) :
    (d.map (fun p => if p.1 == k then (k, v) else p)).find? (fun p => p.1 == k') =
      d.find? (fun p => p.1 == k') := by
  induction d with
  | nil => rfl
  | cons a d ih =>
    by_cases ha : a.1 = k
    · simp only [List.map_cons]
      rw [if_pos (by simpa using ha)]
      rw [List.find?_cons_of_neg _ (by simp [Ne.symm h])]
      rw [List.find?_cons_of_neg _ (by simp [ha, Ne.symm h])]
      exact ih
    · simp only [List.map_cons]
      rw [if_neg (by simpa using ha)]
      by_cases ha' : a.1 = k'
      · rw [List.find?_cons_of_pos _ (by simpa using ha'),
          List.find?_cons_of_pos _ (by simpa using ha')]
      · rw [List.find?_cons_of_neg _ (by simpa using ha'),
          List.find?_cons_of_neg _ (by simpa using ha')]
        exact ih

theorem dictLookup_dictInsert (d : List (String × String)) (k v k' : String) :
    dictLookup (dictInsert d k v) k' = if k' = k then some v else dictLookup d k' := by
  unfold dictInsert dictLookup
  by_cases hany : d.any (fun p => p.1 == k)
  · rw [if_pos hany]
    by_cases hk : k' = k
    · subst hk
      rw [find?_map_replace_pos d k' v hany]
      simp
    · rw [find?_map_replace_ne d k v k' hk]
      simp [hk]
  · rw [if_neg hany]
    rw [List.find?_append]
    by_cases hk : k' = k
    · subst hk
      have hnone : d.find? (fun p => p.1 == k') = none := by
        rw [List.find?_eq_none]
        intro x hx hpx
        exact hany (List.any_eq_true.mpr ⟨x, hx, hpx⟩)
      rw [hnone]
      simp
    · have hsing : List.find? (fun p => p.1 == k') [(k, v)] = none := by
        simp [Ne.symm hk]
      rw [hsing]
      simp [hk]

theorem dictLookup_toDict (l : List (String × String)) (k : String) :
    dictLookup (toDict l) k = (l.reverse.find? (fun p => p.1 == k)).map (·.2) := by
  induction l using List.reverseRecOn with
  | nil => rfl
  | append_singleton l p ih =>
    have hstep : toDict (l ++ [p]) = dictInsert (toDict l) p.1 p.2 := by
      simp [toDict, List.foldl_append]
    rw [hstep, dictLookup_dictInsert, List.reverse_append]
    simp only [List.reverse_cons, List.reverse_nil, List.nil_append, List.singleton_append]
    by_cases hk : k = p.1
    · rw [if_pos hk, List.find?_cons_of_pos _ (by simp [hk])]
      rfl
    · rw [if_neg hk, List.find?_cons_of_neg _ (by simp [Ne.symm hk])]
      exact ih

/-- Claim C8 (amended): in every row of the final artifact,
`original_country` is the LAST-seen original spelling in the
consumption table that normalized to the row's canonical country name:
building the reverse-lookup dict lets a later spelling with the same
canonical name overwrite an earlier one. -/
theorem original_country_is_last_seen
    {R : Registry} {cons : ConsTable} {emis : EmisTable} {pop : PopTable}
    {out : List OutRow}
    (htr : transform_all R cons emis pop = .ok out)
    {r : OutRow} (hr : r ∈ out) :
    r.original_country = lastSeenOriginal R cons r.country_norm := by
  rw [transform_ok htr] at hr
  obtain ⟨j, hj, e, he, rfl⟩ := mem_mkOutput.mp hr
  show dictLookup (countryMap R cons) j.country_norm = _
  rw [countryMap, dictLookup_toDict]
  rfl



theorem mem_leftJoinPop {A : List (String × PVal)}
    {B : List (String × Option String × PVal)} {j : JoinRow}
    (hj : j ∈ leftJoinPop A B) :
    (B.filter (fun p => p.1 == j.country_norm) = [] ∧
      j.country_code = none ∧ j.population = .nan) ∨
    (∃ p ∈ B, p.1 = j.country_norm ∧
      j.country_code = p.2.1 ∧ j.population = p.2.2) := by
  unfold leftJoinPop at hj
  rw [List.mem_flatMap] at hj
  obtain ⟨c, hc, hj⟩ := hj
  cases hfil : B.filter (fun p => p.1 == c.1) with
  | nil =>
    rw [hfil, List.mem_singleton] at hj
    subst hj
    exact Or.inl ⟨hfil, rfl, rfl⟩
  | cons m ms =>
    rw [hfil, List.mem_map] at hj
    obtain ⟨p, hp, hj⟩ := hj
    subst hj
    have hp' : p ∈ B.filter (fun q => q.1 == c.1) := by
      rw [hfil]
      exact hp
    have hpB : p ∈ B := List.mem_of_mem_filter hp'
    have hpk : p.1 = c.1 := by simpa using List.of_mem_filter hp'
    exact Or.inr ⟨p, hpB, hpk, rfl, rfl⟩

/-- Claim C10: on every successful run, each artifact row carries a
`country_code` column beyond the fields the spec enumerates for
`FootprintRecord` — it is exactly the column the dashboard's
choropleth binds its locations to — and it holds the population
table's code for a row the left join matched, and null for an
unmatched row. -/
theorem country_code_column_for_dashboard
    {R : Registry} {cons : ConsTable} {emis : EmisTable} {pop : PopTable}
    {out : List OutRow}
    (htr : transform_all R cons emis pop = .ok out)
    {r : OutRow} (hr : r ∈ out) :
    choroplethLocations = "country_code" ∧
    choroplethLocations ∈ outputColumns ∧
    choroplethLocations ∉ specFootprintFields ∧
    (((popKeyed R cons pop).filter (fun p => p.1 == r.country_norm) = [] ∧
        r.country_code = none) ∨
      (∃ p ∈ popKeyed R cons pop, p.1 = r.country_norm ∧
        r.country_code = p.2.1)) := by
  refine ⟨rfl, by simp [choroplethLocations, outputColumns],
    by simp [choroplethLocations, specFootprintFields], ?_⟩
  rw [transform_ok htr] at hr
  obtain ⟨j, hj, e, he, rfl⟩ := mem_mkOutput.mp hr
  unfold joinedRows at hj
  rcases mem_leftJoinPop hj with ⟨hfil, hcode, _⟩ | ⟨p, hp, hpk, hcode, _⟩
  · exact Or.inl ⟨hfil, hcode⟩
  · exact Or.inr ⟨p, hp, hpk, hcode⟩



/-- Registry with no entries: every lookup fails, so every name passes
through the normalizer unchanged. -/
def regNone : Registry := fun _ => none

/-- Registry recognizing three spellings of Brazil, all mapped to the
canonical short name "Brazil". -/
def regBR : Registry := fun n =>
  if n = "Brazil" ∨ n = "Brasil" ∨ n = "brazil" then some "Brazil" else none

/-- The global emission/water factor row of the end-to-end scenario:
5.0 kgCO2e per kg and 1000.0 l per kg. -/
def emisScenarioRow : EmisRow := ⟨"Coffee", .num 5, .num 1000⟩

/-- Emission/water table of the end-to-end scenario. -/
def emisScenario : EmisTable :=
  ⟨["product", "emission_kgCO2e_per_kg", "water_l_per_kg"], [emisScenarioRow]⟩

/-- Consumption table of the end-to-end scenario: one row, Brazil,
quantity 1 (recorded by the fetcher in units of 1000 tonnes). -/
def consScenario : ConsTable := ⟨["Area", "consumption_t"], [⟨"Brazil", .num 1⟩]⟩

/-- Population table of the end-to-end scenario: Brazil, 200 000 000. -/
def popScenario : PopTable :=
  ⟨["country", "country_code", "population"], [⟨"Brazil", some "BRA", .num 200000000⟩]⟩

/-- The artifact row the code computes on the end-to-end scenario. -/
def rowScenario : OutRow :=
  { country_norm := "Brazil", consumption_kg := .num 1000, country_code := some "BRA",
    population := .num 200000000, emission_kgCO2e_per_kg := .num 5,
    water_l_per_kg := .num 1000, consumption_kg_per_capita := .num (1/200000),
    total_emission_kgCO2e := .num 5000, emission_kgCO2e_per_capita := .num (1/40000),
    total_water_l := .num 1000000, water_per_capita := .num (1/200),
    original_country := some "Brazil" }

theorem scenario_eval :
    transform_all regNone consScenario emisScenario popScenario = .ok [rowScenario] := by
  simp [transform_all, mkOutput, joinedRows, leftJoinPop, consKeyed, popKeyed,
    consNorm, popNorm, cacheAfterCons, normalizeAll, normalize_country, cacheLookup,
    consumptionKg, PVal.mul, PVal.div, computeRow, countryMap, toDict, dictInsert,
    dictLookup, missingCols, requiredConsCols, requiredEmisCols, requiredPopCols,
    consScenario, emisScenario, emisScenarioRow, popScenario, regNone, rowScenario]
  norm_num

/-- Claim C1 (evaluation of the code at the failing input): on the
end-to-end scenario — consumption 1 recorded in 1000-tonne units,
population 200 000 000, factors 5.0 and 1000.0 — the transform
multiplies the consumption by only 1000, producing
consumption_kg = 1000, per-capita consumption 1/200000, total emission
5000 and per-capita water 1/200, not the expected 1 000 000, 0.005,
5 000 000 and 5.0: the code converts as if the input were tonnes. -/
theorem scenario_code_divergence :
    transform_all regNone consScenario emisScenario popScenario = .ok [rowScenario] ∧
    rowScenario.consumption_kg = .num 1000 ∧
    rowScenario.consumption_kg ≠ .num 1000000 ∧
    rowScenario.consumption_kg_per_capita ≠ .num (1/200) ∧
    rowScenario.total_emission_kgCO2e ≠ .num 5000000 ∧
    rowScenario.water_per_capita ≠ .num 5 := by
  refine ⟨scenario_eval, rfl, ?_, ?_, ?_, ?_⟩
  all_goals simp [rowScenario]
  all_goals norm_num

/-- Claim C2 (evaluation of the code at the failing input): the unit
conversion multiplies the `consumption_t` column by exactly 1000, so a
tonne-denominated input of 2000 becomes 2 000 000 kg, but an input of
2 recorded in 1000-tonne units becomes only 2000 kg, not 2 000 000;
moreover the fetcher writes the consumption file with the column name
`consumption_1000t`, which the transform's schema check rejects, so
the 1000-tonne vintage is never normalized to kilograms at all. -/
theorem unit_conversion_code_divergence :
    consumptionKg ⟨"Brazil", .num 2000⟩ = .num 2000000 ∧
    consumptionKg ⟨"Brazil", .num 2⟩ = .num 2000 ∧
    (PVal.num 2000 : PVal) ≠ .num 2000000 ∧
    transform_all regNone ⟨["country", "consumption_1000t"], []⟩ emisScenario popScenario =
      .error .schemaError := by
  refine ⟨?_, ?_, by simp, ?_⟩
  · simp [consumptionKg, PVal.mul]
    norm_num
  · simp [consumptionKg, PVal.mul]
    norm_num
  · simp [transform_all, missingCols, requiredConsCols]

/-- Population table recording Brazil with population zero. -/
def popZero : PopTable :=
  ⟨["country", "country_code", "population"], [⟨"Brazil", some "BRA", .num 0⟩]⟩

/-- Claim C3 counterexample: with a population recorded as the number
zero, the derived per-capita consumption is positive infinity — not
null/undefined as the claim states for zero populations. -/
theorem zero_population_gives_infinite_per_capita :
    (outputFile regNone consScenario emisScenario popZero).map
        (fun l => l.map (fun r => (r.population, r.consumption_kg_per_capita))) =
      some [(PVal.num 0, PVal.inf true)] ∧
    PVal.inf true ≠ PVal.nan := by
  refine ⟨?_, by simp⟩
  simp [outputFile, Except.toOption, transform_all, mkOutput, joinedRows, leftJoinPop,
    consKeyed, popKeyed, consNorm, popNorm, cacheAfterCons, normalizeAll,
    normalize_country, cacheLookup, consumptionKg, PVal.mul, PVal.div, computeRow,
    countryMap, toDict, dictInsert, dictLookup, missingCols, requiredConsCols,
    requiredEmisCols, requiredPopCols, consScenario, emisScenario, emisScenarioRow,
    popZero, regNone]



/-- Population table with the right header but no rows, so every
consumption country is unmatched by the left join. -/
def popEmptyRows : PopTable := ⟨["country", "country_code", "population"], []⟩

/-- The artifact row computed for a country the left join could not
match: null code, NaN population, NaN per-capita fields. -/
def rowUnmatched : OutRow :=
  { country_norm := "Brazil", consumption_kg := .num 1000, country_code := none,
    population := .nan, emission_kgCO2e_per_kg := .num 5,
    water_l_per_kg := .num 1000, consumption_kg_per_capita := .nan,
    total_emission_kgCO2e := .num 5000, emission_kgCO2e_per_capita := .nan,
    total_water_l := .num 1000000, water_per_capita := .nan,
    original_country := some "Brazil" }

theorem unmatched_eval :
    transform_all regNone consScenario emisScenario popEmptyRows = .ok [rowUnmatched] := by
  simp [transform_all, mkOutput, joinedRows, leftJoinPop, consKeyed, popKeyed,
    consNorm, popNorm, cacheAfterCons, normalizeAll, normalize_country, cacheLookup,
    consumptionKg, PVal.mul, PVal.div, computeRow, countryMap, toDict, dictInsert,
    dictLookup, missingCols, requiredConsCols, requiredEmisCols, requiredPopCols,
    consScenario, emisScenario, emisScenarioRow, popEmptyRows, regNone, rowUnmatched]
  norm_num

theorem per_capita_null_witness :
    transform_all regNone consScenario emisScenario popEmptyRows = .ok [rowUnmatched] ∧
    rowUnmatched ∈ [rowUnmatched] ∧
    rowUnmatched.population = .nan ∧
    (rowUnmatched.consumption_kg_per_capita = .nan ∧
     rowUnmatched.emission_kgCO2e_per_capita = .nan ∧
     rowUnmatched.water_per_capita = .nan) :=
  ⟨unmatched_eval, List.mem_singleton.mpr rfl, rfl,
    (per_capita_on_null_or_zero_population unmatched_eval
      (List.mem_singleton.mpr rfl)).1 rfl⟩

theorem total_emission_witness :
    emisScenario.rows = [emisScenarioRow] ∧
    transform_all regNone consScenario emisScenario popScenario = .ok [rowScenario] ∧
    rowScenario ∈ [rowScenario] ∧
    (rowScenario.emission_kgCO2e_per_kg = emisScenarioRow.emission_kgCO2e_per_kg ∧
     rowScenario.total_emission_kgCO2e =
       rowScenario.consumption_kg.mul emisScenarioRow.emission_kgCO2e_per_kg) :=
  ⟨rfl, scenario_eval, List.mem_singleton.mpr rfl,
    total_emission_is_consumption_times_global_factor rfl scenario_eval
      (List.mem_singleton.mpr rfl)⟩

/-- Population table whose header lacks the required `population`
column. -/
def popMissingCol : PopTable := ⟨["country", "country_code"], []⟩

theorem schema_error_witness :
    ((∃ c ∈ requiredConsCols, ¬ consScenario.cols.contains c) ∨
     (∃ c ∈ requiredEmisCols, ¬ emisScenario.cols.contains c) ∨
     (∃ c ∈ requiredPopCols, ¬ popMissingCol.cols.contains c)) ∧
    (transform_all regNone consScenario emisScenario popMissingCol =
        .error .schemaError ∧
     outputFile regNone consScenario emisScenario popMissingCol = none) := by
  have h : (∃ c ∈ requiredConsCols, ¬ consScenario.cols.contains c) ∨
      (∃ c ∈ requiredEmisCols, ¬ emisScenario.cols.contains c) ∨
      (∃ c ∈ requiredPopCols, ¬ popMissingCol.cols.contains c) :=
    Or.inr (Or.inr ⟨"population", by simp [requiredPopCols], by simp [popMissingCol]⟩)
  exact ⟨h, missing_column_raises_schema_error h⟩

theorem row_count_witness :
    emisScenario.rows = [emisScenarioRow] ∧
    transform_all regNone consScenario emisScenario popScenario = .ok [rowScenario] ∧
    ((joinedRows regNone consScenario popScenario).map (·.country_norm)).Nodup ∧
    ([rowScenario] : List OutRow).length =
      ((joinedRows regNone consScenario popScenario).map (·.country_norm)).dedup.length := by
  have hjoin : joinedRows regNone consScenario popScenario =
      [⟨"Brazil", .num 1000, some "BRA", .num 200000000⟩] := by
    simp [joinedRows, leftJoinPop, consKeyed, popKeyed, consNorm, popNorm,
      cacheAfterCons, normalizeAll, normalize_country, cacheLookup, consumptionKg,
      PVal.mul, consScenario, popScenario, regNone]
  have hnd : ((joinedRows regNone consScenario popScenario).map (·.country_norm)).Nodup := by
    rw [hjoin]
    simp
  exact ⟨rfl, scenario_eval, hnd,
    artifact_row_count_eq_distinct_countries rfl scenario_eval hnd⟩

theorem normalize_lookup_witness :
    cacheLookup [] "Atlantis" = none ∧
    ((normalize_country regBR [] "Atlantis").result =
        ((regBR "Atlantis").getD "Atlantis") ∧
     (normalize_country regBR [] "Atlantis").warned = (regBR "Atlantis").isNone) ∧
    cacheLookup [] "Brasil" = none ∧
    ((normalize_country regBR [] "Brasil").result = ((regBR "Brasil").getD "Brasil") ∧
     (normalize_country regBR [] "Brasil").warned = (regBR "Brasil").isNone) :=
  ⟨rfl, normalize_lookup_behavior regBR [] "Atlantis" rfl,
   rfl, normalize_lookup_behavior regBR [] "Brasil" rfl⟩

theorem normalize_idempotent_witness :
    (∀ n c, regBR n = some c → regBR c = some c) ∧
    CacheConsistent regBR [] ∧
    (regBR "Brasil").isSome ∧
    (normalize_country regBR (normalize_country regBR [] "Brasil").cache
        (normalize_country regBR [] "Brasil").result).result =
      (normalize_country regBR [] "Brasil").result := by
  have hstable : ∀ n c, regBR n = some c → regBR c = some c := by
    intro n c h
    unfold regBR at h ⊢
    split at h
    · injection h with h2
      subst h2
      simp
    · cases h
  have hconsist : CacheConsistent regBR [] := by
    intro p hp
    cases hp
  exact ⟨hstable, hconsist, by simp [regBR],
    normalize_idempotent hstable hconsist (by simp [regBR])⟩

/-- Consumption table with two spellings of Brazil, both normalizing
to the canonical name "Brazil": first "brazil", then "Brasil". -/
def consTwoSpellings : ConsTable :=
  ⟨["Area", "consumption_t"], [⟨"brazil", .num 1⟩, ⟨"Brasil", .num 2⟩]⟩

/-- Claim C8 counterexample: with two spellings of the same country in
the consumption table, the artifact's `original_country` is the
LAST-seen spelling "Brasil" on every Brazil row, while the first-seen
spelling that normalized to "Brazil" is "brazil": the dict built from
the consumption table lets later spellings overwrite earlier ones. -/
theorem original_country_counterexample :
    (outputFile regBR consTwoSpellings emisScenario popScenario).map
        (fun l => l.map (fun r => (r.country_norm, r.original_country))) =
      some [("Brazil", some "Brasil"), ("Brazil", some "Brasil")] ∧
    firstSeenOriginal regBR consTwoSpellings "Brazil" = some "brazil" ∧
    (some "Brasil" : Option String) ≠ some "brazil" := by
  refine ⟨?_, ?_, by simp⟩
  · simp [outputFile, Except.toOption, transform_all, mkOutput, joinedRows,
      leftJoinPop, consKeyed, popKeyed, consNorm, popNorm, cacheAfterCons,
      normalizeAll, normalize_country, cacheLookup, consumptionKg, PVal.mul,
      PVal.div, computeRow, countryMap, toDict, dictInsert, dictLookup,
      missingCols, requiredConsCols, requiredEmisCols, requiredPopCols,
      consTwoSpellings, emisScenario, emisScenarioRow, popScenario, regBR]
  · simp [firstSeenOriginal, consNorm, normalizeAll, normalize_country,
      cacheLookup, consTwoSpellings, regBR]

theorem original_country_witness :
    transform_all regNone consScenario emisScenario popScenario = .ok [rowScenario] ∧
    rowScenario ∈ [rowScenario] ∧
    rowScenario.original_country =
      lastSeenOriginal regNone consScenario rowScenario.country_norm :=
  ⟨scenario_eval, List.mem_singleton.mpr rfl,
    original_country_is_last_seen scenario_eval (List.mem_singleton.mpr rfl)⟩

theorem country_code_witness :
    transform_all regNone consScenario emisScenario popScenario = .ok [rowScenario] ∧
    rowScenario ∈ [rowScenario] ∧
    (choroplethLocations = "country_code" ∧
     choroplethLocations ∈ outputColumns ∧
     choroplethLocations ∉ specFootprintFields ∧
     (((popKeyed regNone consScenario popScenario).filter
          (fun p => p.1 == rowScenario.country_norm) = [] ∧
        rowScenario.country_code = none) ∨
      (∃ p ∈ popKeyed regNone consScenario popScenario,
        p.1 = rowScenario.country_norm ∧ rowScenario.country_code = p.2.1))) :=
  ⟨scenario_eval, List.mem_singleton.mpr rfl,
    country_code_column_for_dashboard scenario_eval (List.mem_singleton.mpr rfl)⟩


end CoffeeStats
